import Mathlib

/-!
Verification of the fabric-video-editor Store (the central editing state
engine) against its natural-language specification.

The repository ships the Store's unit tests (Store.test.ts) and mocks; the
Store implementation module itself (src/store/Store.ts) is not part of the
provided sources, so the Store's data model and operations are modelled
here from the specification, and checked for consistency with the observable
behaviour the unit tests pin down (default values, clamping, clock
conversion, playback auto-stop, media synchronisation, ...).

Times are modelled as exact rationals (milliseconds), frame counts as
integers; `round` is the round-half-up rounding of Mathlib, matching the
behaviour of JavaScript's Math.round on the values involved.
-/

namespace FabricVideoEditor

/-- Modelled from the spec: `timeFrame { start, end }` of an EditorElement,
milliseconds from the beginning of the global timeline.  The source field
`end` is a Lean keyword and is rendered here as `endTime`. -/
structure TimeFrame where
  start : ℚ
  endTime : ℚ
deriving DecidableEq, Repr

/-- Modelled from the spec: canvas-space transform of an element. -/
structure Placement where
  x : ℚ
  y : ℚ
  width : ℚ
  height : ℚ
  rotation : ℚ
  scaleX : ℚ
  scaleY : ℚ
deriving DecidableEq, Repr

/-- Modelled from the spec: the `type` tag of an EditorElement. -/
inductive ElementKind where
  | text
  | image
  | video
  | audio
deriving DecidableEq, Repr

/-- Modelled from the spec: the kind of a per-element visual filter. -/
inductive EffectKind where
  | none
  | blackAndWhite
  | saturate
  | sepia
  | invert
deriving DecidableEq, Repr

/-- Modelled from the spec: `Effect — { type: none | blackAndWhite | ... }`,
owned inline by an image/video element's properties. -/
structure Effect where
  type : EffectKind
deriving DecidableEq, Repr

/-- Modelled from the spec: the variant `properties` payload of an
EditorElement — text (`text, fontSize, fontWeight, splittedTexts`),
image/video (`elementId, src, effect`), audio (`elementId, src`). -/
inductive ElementProps where
  | text (text : String) (fontSize : ℚ) (fontWeight : ℚ) (splittedTexts : List String)
  | media (elementId : String) (src : String) (effect : Effect)
  | audio (elementId : String) (src : String)
deriving DecidableEq, Repr

/-- Modelled from the spec: an EditorElement, a placed timeline entity.
`fabricVisible` stands for the `visible` flag of the element's backing
Canvas Surface object. -/
structure EditorElement where
  id : String
  type : ElementKind
  name : String
  fabricVisible : Bool
  timeFrame : TimeFrame
  placement : Placement
  properties : ElementProps
deriving DecidableEq, Repr

/-- Modelled from the spec: a declarative time-based transform bound to one
EditorElement by `targetId`.  The variant animation properties (direction,
useClipPath, textType) play no role in the claims and are omitted. -/
structure Animation where
  id : String
  targetId : String
  type : String
  duration : ℚ
deriving DecidableEq, Repr

/-- Modelled from the spec: one appended segment of the shared animation
timeline, produced during a full rebuild for one (element, animation) pair. -/
structure TimelineSegment where
  elementId : String
  animationId : String
deriving DecidableEq, Repr

/-- Modelled from the spec: the command the media-sync update issues to one
live video/audio DOM-level media resource: the `currentTime` pushed to it
(seconds), and whether `play()` (true) or `pause()` (false) is called. -/
structure MediaCmd where
  currentTime : ℚ
  doPlay : Bool
deriving DecidableEq, Repr

/-- Modelled from the spec: the process-wide editing state of the Store.
`canvasObjects` is the registry of Canvas Surface objects keyed by element
id; `canvasActive` is the Canvas Surface's active (selected) object;
`timelineCleared` records that the last timeline rebuild cleared prior
tweens (the Animation Backend's `remove` was invoked). -/
structure Store where
  backgroundColor : String
  selectedMenuOption : String
  selectedVideoFormat : String
  videos : List String
  images : List String
  audios : List String
  editorElements : List EditorElement
  selectedElement : Option EditorElement
  canvasObjects : List String
  canvasActive : Option String
  maxTime : ℚ
  animations : List Animation
  animationTimeLine : List TimelineSegment
  timelineCleared : Bool
  currentKeyFrame : ℤ
  fps : ℚ
  playing : Bool
  startedTime : ℚ
  startedTimePlay : ℚ
deriving DecidableEq, Repr

/-- Modelled from the spec: the Store's constructor defaults, as pinned
down by the initialization unit tests. -/
def initStore : Store where
  backgroundColor := "#111111"
  selectedMenuOption := "Video"
  selectedVideoFormat := "mp4"
  videos := []
  images := []
  audios := []
  editorElements := []
  selectedElement := Option.none
  canvasObjects := []
  canvasActive := Option.none
  maxTime := 30000
  animations := []
  animationTimeLine := []
  timelineCleared := false
  currentKeyFrame := 0
  fps := 60
  playing := false
  startedTime := 0
  startedTimePlay := 0

/-- Modelled from the spec: `currentTimeInMs = currentKeyFrame / fps * 1000`,
the millisecond view of the logical clock. -/
def Store.currentTimeInMs (s : Store) : ℚ :=
  (s.currentKeyFrame : ℚ) / s.fps * 1000

/-- Modelled from the spec: `setCurrentTimeInMs(t)` sets
`currentKeyFrame = round(t * fps / 1000)`. -/
def Store.setCurrentTimeInMs (s : Store) (t : ℚ) : Store :=
  { s with currentKeyFrame := round (t * s.fps / 1000) }

/-- Modelled from the spec: `handleSeek(t)` is equivalent to
`setCurrentTimeInMs(t)` and does not itself start or stop playback. -/
def Store.handleSeek (s : Store) (t : ℚ) : Store :=
  s.setCurrentTimeInMs t

/-- Modelled from the spec: a full timeline rebuild — for every
EditorElement, for every Animation bound to it, one timeline segment is
appended (in element order, then animation order). -/
def buildTimeline (elements : List EditorElement) (animations : List Animation) :
    List TimelineSegment :=
  elements.flatMap fun (e : EditorElement) =>
    (animations.filter fun (a : Animation) => decide (a.targetId = e.id)).map fun (a : Animation) =>
      { elementId := e.id, animationId := a.id }

/-- Modelled from the spec: any mutation of the animation list triggers a
full rebuild of the shared timeline — prior tweens are cleared (Animation
Backend `remove` invoked) and segments are recomputed from the current
elements and animations. -/
def Store.refreshAnimations (s : Store) : Store :=
  { s with
    animationTimeLine := buildTimeline s.editorElements s.animations
    timelineCleared := true }

/-- Modelled from the spec: `addAnimation` appends to the animation list
and triggers a full timeline rebuild. -/
def Store.addAnimation (s : Store) (a : Animation) : Store :=
  ({ s with animations := s.animations ++ [a] }).refreshAnimations

/-- Modelled from the spec: `updateAnimation(id, a)` replaces the animation
with that id and triggers a full timeline rebuild. -/
def Store.updateAnimation (s : Store) (id : String) (a : Animation) : Store :=
  ({ s with
      animations := s.animations.map fun (x : Animation) => if x.id = id then a else x }).refreshAnimations

/-- Modelled from the spec: `removeAnimation(id)` removes the animation
with that id and triggers a full timeline rebuild. -/
def Store.removeAnimation (s : Store) (id : String) : Store :=
  ({ s with
      animations := s.animations.filter fun (x : Animation) => decide (x.id ≠ id) }).refreshAnimations

/-- Modelled from the spec: `setSelectedElement(e | null)` — null deselects
and discards the Canvas Surface's active selection; non-null marks that
element's backing object active. -/
def Store.setSelectedElement (s : Store) (e : Option EditorElement) : Store :=
  { s with
    selectedElement := e
    canvasActive := e.map fun (x : EditorElement) => x.id }

/-- Modelled from the spec: `addElement(e)` appends `e` to the ordered
element sequence, creates and registers the matching Canvas Surface object,
and selects `e`. -/
def Store.addEditorElement (s : Store) (e : EditorElement) : Store :=
  ({ s with
      editorElements := s.editorElements ++ [e]
      canvasObjects := s.canvasObjects ++ [e.id] }).setSelectedElement (Option.some e)

/-- Modelled from the spec: `removeElement(id)` removes the element and its
Canvas Surface object, and clears selection if it was selected. -/
def Store.removeEditorElement (s : Store) (id : String) : Store :=
  { s with
    editorElements := s.editorElements.filter fun (x : EditorElement) => decide (x.id ≠ id)
    canvasObjects := s.canvasObjects.filter fun (x : String) => decide (x ≠ id)
    selectedElement :=
      match s.selectedElement with
      | Option.some sel => if sel.id = id then Option.none else Option.some sel
      | Option.none => Option.none
    canvasActive :=
      match s.canvasActive with
      | Option.some a => if a = id then Option.none else Option.some a
      | Option.none => Option.none }

/-- Modelled from the spec: `updateElement(e)` replaces the element with
matching id in place; if it was selected, the selection reference is
refreshed to the new value. -/
def Store.updateEditorElement (s : Store) (e : EditorElement) : Store :=
  { s with
    editorElements := s.editorElements.map fun (x : EditorElement) => if x.id = e.id then e else x
    selectedElement :=
      match s.selectedElement with
      | Option.some sel => if sel.id = e.id then Option.some e else Option.some sel
      | Option.none => Option.none }

/-- Modelled from the spec: `setElements(list)` replaces the collection
wholesale; selection (if any) is re-resolved against the new list by id. -/
def Store.setEditorElements (s : Store) (l : List EditorElement) : Store :=
  ({ s with
      editorElements := l
      selectedElement :=
        match s.selectedElement with
        | Option.some sel => l.find? fun (x : EditorElement) => decide (x.id = sel.id)
        | Option.none => Option.none }).refreshAnimations

/-- Modelled from the spec: a timeframe update carrying optional `start`
and `end` fields (the source field `end` is rendered `endTime`). -/
structure TimeFrameUpdate where
  start : Option ℚ
  endTime : Option ℚ
deriving DecidableEq, Repr

/-- Modelled from the spec: merge the provided fields into a timeframe,
then clamp `start` to `[0, ∞)` and `end` to `(-∞, maxTime]`. -/
def mergeClampTimeFrame (maxTime : ℚ) (tf : TimeFrame) (p : TimeFrameUpdate) :
    TimeFrame :=
  { start := max 0 (p.start.getD tf.start)
    endTime := min maxTime (p.endTime.getD tf.endTime) }

/-- Modelled from the spec: `updateTimeFrame(e, partial)` merges the
provided fields, clamps, and writes the element back through
`updateElement`, then rebuilds the animation timeline. -/
def Store.updateEditorElementTimeFrame (s : Store) (e : EditorElement)
    (p : TimeFrameUpdate) : Store :=
  (s.updateEditorElement
    { e with timeFrame := mergeClampTimeFrame s.maxTime e.timeFrame p }).refreshAnimations

/-- Modelled from the spec: whether logical time `t` falls inside an
element's timeframe (`timeFrame.start ≤ t ≤ timeFrame.end`). -/
def inTimeFrame (t : ℚ) (e : EditorElement) : Bool :=
  decide (e.timeFrame.start ≤ t) && decide (t ≤ e.timeFrame.endTime)

/-- Modelled from the spec: `updateTimeTo(t)` sets the logical time and
toggles each element's Canvas Surface object visibility to whether `t`
falls inside its timeframe. -/
def Store.updateTimeTo (s : Store) (t : ℚ) : Store :=
  let s' := s.setCurrentTimeInMs t
  { s' with
    editorElements := s'.editorElements.map fun (e : EditorElement) =>
      { e with fabricVisible := inTimeFrame t e } }

/-- Modelled from the spec: the per-frame playback tick.  `now` is the wall
clock; the second component records whether the next tick was scheduled.
If the new logical time reaches `maxTime` the clock stops and logical time
is reset to 0, otherwise logical time advances and the next tick is
scheduled. -/
def Store.playFrames (s : Store) (now : ℚ) : Store × Bool :=
  if s.playing then
    let newTime := s.startedTimePlay + (now - s.startedTime)
    if s.maxTime ≤ newTime then
      ({ s.updateTimeTo 0 with playing := false }, false)
    else
      (s.updateTimeTo newTime, true)
  else (s, false)

/-- The DOM media-resource id an element's properties refer to (video,
image and audio payloads carry an `elementId`; text has none and falls
back to the element id). -/
def elementIdOf (e : EditorElement) : String :=
  match e.properties with
  | ElementProps.text _ _ _ _ => e.id
  | ElementProps.media eid _ _ => eid
  | ElementProps.audio eid _ => eid

/-- Modelled from the spec: the media-sync command for one element at
logical time `t` — `currentTime` is `(t − timeFrame.start)/1000` seconds,
and `play()` is called iff the clock is playing and `t` falls inside the
element's timeframe (otherwise `pause()` is called). -/
def mediaSync (playing : Bool) (t : ℚ) (e : EditorElement) : MediaCmd :=
  { currentTime := (t - e.timeFrame.start) / 1000
    doPlay := playing && inTimeFrame t e }

/-- Modelled from the spec: `updateVideoElements` pushes a media-sync
command to the backing media resource of every video element. -/
def Store.updateVideoElements (s : Store) : List (String × MediaCmd) :=
  (s.editorElements.filter fun (e : EditorElement) => decide (e.type = ElementKind.video)).map fun (e : EditorElement) =>
    (elementIdOf e, mediaSync s.playing s.currentTimeInMs e)

/-- Modelled from the spec: `updateAudioElements` pushes a media-sync
command to the backing media resource of every audio element. -/
def Store.updateAudioElements (s : Store) : List (String × MediaCmd) :=
  (s.editorElements.filter fun (e : EditorElement) => decide (e.type = ElementKind.audio)).map fun (e : EditorElement) =>
    (elementIdOf e, mediaSync s.playing s.currentTimeInMs e)

/-- The effect stored in an element's properties, when the properties are
the image/video variant. -/
def effectOf (e : EditorElement) : Option Effect :=
  match e.properties with
  | ElementProps.media _ _ eff => Option.some eff
  | _ => Option.none

/-- Replace the effect inside an image/video element's properties
wholesale; identity on other property variants. -/
def setElementEffect (e : EditorElement) (eff : Effect) : EditorElement :=
  match e.properties with
  | ElementProps.media eid src _ => { e with properties := ElementProps.media eid src eff }
  | _ => e

/-- Modelled from the spec: `updateEffect(elementId, effect)` locates the
video/image element by id and replaces `properties.effect` wholesale,
leaving everything else in place. -/
def Store.updateEffect (s : Store) (id : String) (eff : Effect) : Store :=
  { s with
    editorElements := s.editorElements.map fun (e : EditorElement) =>
      if e.id = id ∧ (e.type = ElementKind.video ∨ e.type = ElementKind.image)
      then setElementEffect e eff else e }

/-- Modelled from the spec: the options `addText` receives. -/
structure TextOptions where
  text : String
  fontSize : ℚ
  fontWeight : ℚ
deriving DecidableEq, Repr

/-- Modelled from the spec: the default placement of a newly created
element. -/
def defaultPlacement : Placement :=
  { x := 0, y := 0, width := 100, height := 100, rotation := 0, scaleX := 1, scaleY := 1 }

/-- Modelled from the spec: the text element `addText(options)` creates —
id from the external uid generator, default timeframe the full timeline
`{start: 0, end: maxTime}`, properties carrying exactly the given text,
fontSize and fontWeight. -/
def newTextElement (uid : String) (index : ℕ) (maxTime : ℚ) (o : TextOptions) :
    EditorElement :=
  { id := uid
    type := ElementKind.text
    name := "Text " ++ toString (index + 1)
    fabricVisible := true
    timeFrame := { start := 0, endTime := maxTime }
    placement := defaultPlacement
    properties := ElementProps.text o.text o.fontSize o.fontWeight [] }

/-- Modelled from the spec: `addText(options)` creates the text element and
adds it through `addElement`.  The uid comes from an external generator and
is passed explicitly. -/
def Store.addText (s : Store) (uid : String) (o : TextOptions) : Store :=
  s.addEditorElement (newTextElement uid s.editorElements.length s.maxTime o)

/-- Modelled from the spec: the video element `addVideo` creates — its
default `timeFrame.end` is seeded from the media resource's duration
(seconds), i.e. `duration * 1000` milliseconds. -/
def newVideoElement (uid : String) (index : ℕ) (durationSec : ℚ) (src : String) :
    EditorElement :=
  { id := uid
    type := ElementKind.video
    name := "Media(video) " ++ toString (index + 1)
    fabricVisible := true
    timeFrame := { start := 0, endTime := durationSec * 1000 }
    placement := defaultPlacement
    properties := ElementProps.media ("video-" ++ uid) src { type := EffectKind.none } }

/-- Modelled from the spec: the audio element `addAudio` creates — its
default `timeFrame.end` is likewise seeded from the media duration. -/
def newAudioElement (uid : String) (index : ℕ) (durationSec : ℚ) (src : String) :
    EditorElement :=
  { id := uid
    type := ElementKind.audio
    name := "Media(audio) " ++ toString (index + 1)
    fabricVisible := true
    timeFrame := { start := 0, endTime := durationSec * 1000 }
    placement := defaultPlacement
    properties := ElementProps.audio ("audio-" ++ uid) src }

/-- Modelled from the spec: `addVideo` creates the video element (timeframe
seeded from the media duration) and adds it through `addElement`. -/
def Store.addVideo (s : Store) (uid : String) (durationSec : ℚ) (src : String) : Store :=
  s.addEditorElement (newVideoElement uid s.editorElements.length durationSec src)

/-- Modelled from the spec: `addAudio` creates the audio element (timeframe
seeded from the media duration) and adds it through `addElement`. -/
def Store.addAudio (s : Store) (uid : String) (durationSec : ℚ) (src : String) : Store :=
  s.addEditorElement (newAudioElement uid s.editorElements.length durationSec src)

/-- A concrete text element, mirroring the unit-test fixture. -/
def sampleText : EditorElement :=
  { id := "t1"
    type := ElementKind.text
    name := "Test Text Element"
    fabricVisible := true
    timeFrame := { start := 1000, endTime := 5000 }
    placement := defaultPlacement
    properties := ElementProps.text "test" 12 400 [] }

/-- A concrete video element, mirroring the unit-test fixture. -/
def sampleVideo : EditorElement :=
  { id := "v1"
    type := ElementKind.video
    name := "Test Video"
    fabricVisible := true
    timeFrame := { start := 1000, endTime := 6000 }
    placement := defaultPlacement
    properties := ElementProps.media "v-el" "test.mp4" { type := EffectKind.none } }

/-- A concrete audio element, mirroring the unit-test fixture. -/
def sampleAudio : EditorElement :=
  { id := "a1"
    type := ElementKind.audio
    name := "Test Audio"
    fabricVisible := true
    timeFrame := { start := 1000, endTime := 6000 }
    placement := defaultPlacement
    properties := ElementProps.audio "a-el" "test.mp3" }

/-- A store holding the sample text element. -/
def sampleStoreWithText : Store := initStore.addEditorElement sampleText

/-- A stopped store holding the sample media elements at keyframe 120
(2000 ms at 60 fps). -/
def mediaStore : Store :=
  { initStore with editorElements := [sampleVideo, sampleAudio], currentKeyFrame := 120 }

/-- The media store with the clock playing. -/
def mediaStorePlaying : Store := { mediaStore with playing := true }

/-- A playing store with `maxTime = 1000` and both clock anchors at 0. -/
def playingStore : Store := { initStore with playing := true, maxTime := 1000 }

/-- C1: for every Store, `currentTimeInMs` equals
`currentKeyFrame / fps * 1000`; `setCurrentTimeInMs(t)` sets
`currentKeyFrame = round(t * fps / 1000)`; for `0 ≤ t ≤ maxTime` the
round-trip `setCurrentTimeInMs(t); currentTimeInMs` yields
`round(t/1000*fps)/fps*1000`; and the conversion is invertible under
integer frame counts. -/
theorem c1_logical_clock_conversion (s : Store) (t : ℚ) (k : ℤ)
    (hfps : s.fps ≠ 0) (h0 : 0 ≤ t) (h1 : t ≤ s.maxTime) :
    s.currentTimeInMs = (s.currentKeyFrame : ℚ) / s.fps * 1000
    ∧ (s.setCurrentTimeInMs t).currentKeyFrame = round (t * s.fps / 1000)
    ∧ (s.setCurrentTimeInMs t).currentTimeInMs
        = ((round (t / 1000 * s.fps) : ℤ) : ℚ) / s.fps * 1000
    ∧ (s.setCurrentTimeInMs ((k : ℚ) / s.fps * 1000)).currentKeyFrame = k := by
  refine ⟨rfl, rfl, ?_, ?_⟩
  · show ((round (t * s.fps / 1000) : ℤ) : ℚ) / s.fps * 1000 = _
    have harg : t * s.fps / 1000 = t / 1000 * s.fps := by ring
    rw [harg]
  · show round ((k : ℚ) / s.fps * 1000 * s.fps / 1000) = k
    have harg : (k : ℚ) / s.fps * 1000 * s.fps / 1000 = (k : ℚ) := by
      field_simp
    rw [harg, round_intCast]

/-- Witness for C1 at the unit-test values: the default store (fps 60,
maxTime 30000), `t = 2000` ms and `k = 120` frames. -/
theorem c1_logical_clock_conversion_witness :
    initStore.fps ≠ 0 ∧ (0 : ℚ) ≤ 2000 ∧ (2000 : ℚ) ≤ initStore.maxTime
    ∧ (initStore.setCurrentTimeInMs 2000).currentKeyFrame
        = round ((2000 : ℚ) * initStore.fps / 1000)
    ∧ (initStore.setCurrentTimeInMs 2000).currentTimeInMs
        = ((round ((2000 : ℚ) / 1000 * initStore.fps) : ℤ) : ℚ) / initStore.fps * 1000
    ∧ (initStore.setCurrentTimeInMs (((120 : ℤ) : ℚ) / initStore.fps * 1000)).currentKeyFrame
        = 120 := by
  have h := c1_logical_clock_conversion initStore 2000 120 (by decide) (by decide) (by decide)
  exact ⟨by decide, by decide, by decide, h.2.1, h.2.2.1, h.2.2.2⟩

/-- C5: `addEditorElement(e)` appends `e` to the end of the ordered
`editorElements` sequence (all prior elements retained in order), registers
the matching Canvas Surface object, and makes `e` the selected element. -/
theorem c5_addEditorElement_append_register_select (s : Store) (e : EditorElement) :
    (s.addEditorElement e).editorElements = s.editorElements ++ [e]
    ∧ (s.addEditorElement e).canvasObjects = s.canvasObjects ++ [e.id]
    ∧ (s.addEditorElement e).selectedElement = Option.some e := by
  exact ⟨rfl, rfl, rfl⟩

/-- C10: `addText(options)` creates a text element carrying exactly the
given text, fontSize and fontWeight, with default timeframe
`{start: 0, end: maxTime}` — unlike video/audio elements, whose default
`end` is seeded from the media duration (`duration * 1000` ms). -/
theorem c10_addText_defaults (s : Store) (uid : String) (o : TextOptions)
    (d : ℚ) (src : String) :
    (s.addText uid o).editorElements
      = s.editorElements ++ [newTextElement uid s.editorElements.length s.maxTime o]
    ∧ (newTextElement uid s.editorElements.length s.maxTime o).type = ElementKind.text
    ∧ (newTextElement uid s.editorElements.length s.maxTime o).properties
        = ElementProps.text o.text o.fontSize o.fontWeight []
    ∧ (newTextElement uid s.editorElements.length s.maxTime o).timeFrame
        = { start := 0, endTime := s.maxTime }
    ∧ (newVideoElement uid s.editorElements.length d src).timeFrame.endTime = d * 1000
    ∧ (newAudioElement uid s.editorElements.length d src).timeFrame.endTime = d * 1000 := by
  exact ⟨rfl, rfl, rfl, rfl, rfl, rfl⟩

/-- C2: `updateEditorElementTimeFrame` merges the provided start/end fields
and then clamps, so that afterwards the stored element with the updated id
satisfies `0 ≤ timeFrame.start` and `timeFrame.end ≤ maxTime`; in
particular a start of `-1000` is clamped to `0` and an end of
`maxTime + 5000` is clamped to `maxTime`, on every write. -/
theorem c2_timeframe_clamped (s : Store) (e : EditorElement) (p : TimeFrameUpdate) :
    (∀ x ∈ (s.updateEditorElementTimeFrame e p).editorElements,
        x.id = e.id → 0 ≤ x.timeFrame.start ∧ x.timeFrame.endTime ≤ s.maxTime)
    ∧ (mergeClampTimeFrame s.maxTime e.timeFrame
        { start := Option.some (-1000), endTime := Option.none }).start = 0
    ∧ (mergeClampTimeFrame s.maxTime e.timeFrame
        { start := Option.none, endTime := Option.some (s.maxTime + 5000) }).endTime
        = s.maxTime := by
  refine ⟨?_, ?_, ?_⟩
  · intro x hx hid
    simp only [Store.updateEditorElementTimeFrame, Store.refreshAnimations,
      Store.updateEditorElement, List.mem_map] at hx
    obtain ⟨y, hy, hxy⟩ := hx
    by_cases h : y.id = e.id
    · rw [if_pos h] at hxy
      subst hxy
      exact ⟨le_max_left 0 _, min_le_left s.maxTime _⟩
    · rw [if_neg h] at hxy
      subst hxy
      exact absurd hid h
  · simp [mergeClampTimeFrame]
  · simp [mergeClampTimeFrame]

/-- Witness for C2 at the unit-test values: a start of `-1000` applied to
the sample text element in a default store leaves the stored element with
`timeFrame.start = 0` and `timeFrame.end ≤ maxTime`. -/
theorem c2_timeframe_clamped_witness :
    ({ sampleText with timeFrame := { start := 0, endTime := 5000 } } : EditorElement)
      ∈ (sampleStoreWithText.updateEditorElementTimeFrame sampleText
          { start := Option.some (-1000), endTime := Option.none }).editorElements
    ∧ ({ sampleText with timeFrame := { start := 0, endTime := 5000 } } : EditorElement).id
        = sampleText.id
    ∧ (0 ≤ ({ sampleText with
          timeFrame := { start := 0, endTime := 5000 } } : EditorElement).timeFrame.start
        ∧ ({ sampleText with
          timeFrame := { start := 0, endTime := 5000 } } : EditorElement).timeFrame.endTime
          ≤ sampleStoreWithText.maxTime) := by
  refine ⟨by decide, by decide, ?_⟩
  exact (c2_timeframe_clamped sampleStoreWithText sampleText
    { start := Option.some (-1000), endTime := Option.none }).1 _ (by decide) (by decide)

/-- C3: during a `Playing` tick, if the new logical time
`startedTimePlay + (now − startedTime)` reaches `maxTime`, the clock stops
(`playing` becomes false), logical time is reset to 0
(`currentKeyFrame = 0`), and no further tick is scheduled; otherwise the
logical time advances to the new time and the next tick is scheduled. -/
theorem c3_playframes_autostop (s : Store) (now : ℚ) (hp : s.playing = true) :
    (s.maxTime ≤ s.startedTimePlay + (now - s.startedTime) →
      (s.playFrames now).1.playing = false
      ∧ (s.playFrames now).1.currentKeyFrame = 0
      ∧ (s.playFrames now).2 = false)
    ∧ (s.startedTimePlay + (now - s.startedTime) < s.maxTime →
      (s.playFrames now).1.playing = true
      ∧ (s.playFrames now).1.currentKeyFrame
          = round ((s.startedTimePlay + (now - s.startedTime)) * s.fps / 1000)
      ∧ (s.playFrames now).2 = true) := by
  constructor
  · intro h
    have hn : s.playFrames now = ({ s.updateTimeTo 0 with playing := false }, false) := by
      simp [Store.playFrames, hp, h]
    rw [hn]
    refine ⟨rfl, ?_, rfl⟩
    show round ((0 : ℚ) * s.fps / 1000) = 0
    norm_num
  · intro h
    have hn : s.playFrames now
        = (s.updateTimeTo (s.startedTimePlay + (now - s.startedTime)), true) := by
      simp [Store.playFrames, hp, not_le.mpr h]
    rw [hn]
    exact ⟨hp, rfl, rfl⟩

/-- Witness for C3 at the unit-test values: `maxTime = 1000`, both clock
anchors at 0.  Wall time 2000 stops playback and resets the keyframe to 0;
wall time 500 keeps playing at keyframe 30 and schedules the next tick. -/
theorem c3_playframes_autostop_witness :
    playingStore.playing = true
    ∧ playingStore.maxTime
        ≤ playingStore.startedTimePlay + (2000 - playingStore.startedTime)
    ∧ (playingStore.playFrames 2000).1.playing = false
    ∧ (playingStore.playFrames 2000).1.currentKeyFrame = 0
    ∧ (playingStore.playFrames 2000).2 = false
    ∧ playingStore.startedTimePlay + (500 - playingStore.startedTime)
        < playingStore.maxTime
    ∧ (playingStore.playFrames 500).1.playing = true
    ∧ (playingStore.playFrames 500).1.currentKeyFrame
        = round ((playingStore.startedTimePlay + (500 - playingStore.startedTime))
            * playingStore.fps / 1000)
    ∧ (playingStore.playFrames 500).2 = true := by
  have hstop := (c3_playframes_autostop playingStore 2000 (by decide)).1
    (by norm_num [playingStore, initStore])
  have hgo := (c3_playframes_autostop playingStore 500 (by decide)).2
    (by norm_num [playingStore, initStore])
  exact ⟨by decide, by norm_num [playingStore, initStore], hstop.1, hstop.2.1, hstop.2.2,
    by norm_num [playingStore, initStore], hgo.1, hgo.2.1, hgo.2.2⟩

/-- C4: for every video/audio element whose timeframe contains the current
logical time `t`, the media-sync update issues to its backing media
resource the command setting `currentTime = (t − timeFrame.start)/1000`
seconds, with `play()` called when `playing` is true and `pause()` when it
is false. -/
theorem c4_media_sync_inside_timeframe (s : Store) (e : EditorElement)
    (he : e ∈ s.editorElements)
    (hin : inTimeFrame s.currentTimeInMs e = true) :
    (e.type = ElementKind.video →
      (elementIdOf e,
        ({ currentTime := (s.currentTimeInMs - e.timeFrame.start) / 1000
           doPlay := s.playing } : MediaCmd)) ∈ s.updateVideoElements)
    ∧ (e.type = ElementKind.audio →
      (elementIdOf e,
        ({ currentTime := (s.currentTimeInMs - e.timeFrame.start) / 1000
           doPlay := s.playing } : MediaCmd)) ∈ s.updateAudioElements) := by
  have hpair : (elementIdOf e, mediaSync s.playing s.currentTimeInMs e)
      = (elementIdOf e,
          ({ currentTime := (s.currentTimeInMs - e.timeFrame.start) / 1000
             doPlay := s.playing } : MediaCmd)) := by
    simp [mediaSync, hin]
  constructor
  · intro ht
    have hf : e ∈ s.editorElements.filter
        fun (x : EditorElement) => decide (x.type = ElementKind.video) :=
      List.mem_filter.mpr ⟨he, by simp [ht]⟩
    exact List.mem_map.mpr ⟨e, hf, hpair⟩
  · intro ht
    have hf : e ∈ s.editorElements.filter
        fun (x : EditorElement) => decide (x.type = ElementKind.audio) :=
      List.mem_filter.mpr ⟨he, by simp [ht]⟩
    exact List.mem_map.mpr ⟨e, hf, hpair⟩

/-- Witness for C4 at the unit-test values: keyframe 120 at 60 fps (2000
ms), video timeframe `{1000, 6000}` — the video's media resource gets
`currentTime = 1` second with `pause()` on the stopped store and `play()`
on the playing store, and likewise for the audio element. -/
theorem c4_media_sync_inside_timeframe_witness :
    sampleVideo ∈ mediaStore.editorElements
    ∧ inTimeFrame mediaStore.currentTimeInMs sampleVideo = true
    ∧ ("v-el", ({ currentTime := 1, doPlay := false } : MediaCmd))
        ∈ mediaStore.updateVideoElements
    ∧ ("v-el", ({ currentTime := 1, doPlay := true } : MediaCmd))
        ∈ mediaStorePlaying.updateVideoElements
    ∧ ("a-el", ({ currentTime := 1, doPlay := false } : MediaCmd))
        ∈ mediaStore.updateAudioElements := by
  have htime : inTimeFrame mediaStore.currentTimeInMs sampleVideo = true := by
    norm_num [inTimeFrame, Store.currentTimeInMs, mediaStore, initStore, sampleVideo]
  have htimeA : inTimeFrame mediaStore.currentTimeInMs sampleAudio = true := by
    norm_num [inTimeFrame, Store.currentTimeInMs, mediaStore, initStore, sampleAudio]
  have htimeP : inTimeFrame mediaStorePlaying.currentTimeInMs sampleVideo = true := by
    norm_num [inTimeFrame, Store.currentTimeInMs, mediaStorePlaying, mediaStore,
      initStore, sampleVideo]
  have hv := (c4_media_sync_inside_timeframe mediaStore sampleVideo
    (by decide) htime).1 rfl
  have hvp := (c4_media_sync_inside_timeframe mediaStorePlaying sampleVideo
    (by decide) htimeP).1 rfl
  have ha := (c4_media_sync_inside_timeframe mediaStore sampleAudio
    (by decide) htimeA).2 rfl
  refine ⟨by decide, htime, ?_, ?_, ?_⟩
  · have heq : (elementIdOf sampleVideo,
        ({ currentTime := (mediaStore.currentTimeInMs - sampleVideo.timeFrame.start) / 1000
           doPlay := mediaStore.playing } : MediaCmd))
        = ("v-el", ({ currentTime := 1, doPlay := false } : MediaCmd)) := by
      norm_num [elementIdOf, sampleVideo, mediaStore, initStore, Store.currentTimeInMs]
    exact heq ▸ hv
  · have heq : (elementIdOf sampleVideo,
        ({ currentTime := (mediaStorePlaying.currentTimeInMs - sampleVideo.timeFrame.start) / 1000
           doPlay := mediaStorePlaying.playing } : MediaCmd))
        = ("v-el", ({ currentTime := 1, doPlay := true } : MediaCmd)) := by
      norm_num [elementIdOf, sampleVideo, mediaStorePlaying, mediaStore, initStore,
        Store.currentTimeInMs]
    exact heq ▸ hvp
  · have heq : (elementIdOf sampleAudio,
        ({ currentTime := (mediaStore.currentTimeInMs - sampleAudio.timeFrame.start) / 1000
           doPlay := mediaStore.playing } : MediaCmd))
        = ("a-el", ({ currentTime := 1, doPlay := false } : MediaCmd)) := by
      norm_num [elementIdOf, sampleAudio, mediaStore, initStore, Store.currentTimeInMs]
    exact heq ▸ ha

/-- Replacing the (unique) list entry whose id matches leaves `find?` on
that id returning the replacement. -/
theorem find_replace_by_id (l : List Animation) (id : String) (a : Animation)
    (ha : a.id = id)
    (h : (l.find? fun (x : Animation) => decide (x.id = id)).isSome = true) :
    ((l.map fun (x : Animation) => if x.id = id then a else x).find?
        fun (x : Animation) => decide (x.id = id)) = Option.some a := by
  induction l with
  | nil => simp at h
  | cons y ys ih =>
    by_cases hy : y.id = id
    · simp [hy, ha]
    · rw [List.find?_cons_of_neg _ (by simp [hy])] at h
      rw [List.map_cons, if_neg hy, List.find?_cons_of_neg _ (by simp [hy])]
      exact ih h

/-- C6: for an element whose id is not already present, `addEditorElement`
followed by `removeEditorElement` of that id restores the prior element
sequence (content-equal and order-preserving) — and the removal clears the
selection whenever the removed element was the selected one. -/
theorem c6_add_remove_roundtrip (s : Store) (e : EditorElement)
    (hfresh : ∀ x ∈ s.editorElements, x.id ≠ e.id) :
    ((s.addEditorElement e).removeEditorElement e.id).editorElements = s.editorElements
    ∧ ((s.addEditorElement e).removeEditorElement e.id).selectedElement = Option.none
    ∧ (∀ sel, s.selectedElement = Option.some sel → sel.id = e.id →
        (s.removeEditorElement e.id).selectedElement = Option.none) := by
  refine ⟨?_, ?_, ?_⟩
  · show ((s.editorElements ++ [e]).filter
      fun (x : EditorElement) => decide (x.id ≠ e.id)) = s.editorElements
    rw [List.filter_append]
    have h1 : (s.editorElements.filter
        fun (x : EditorElement) => decide (x.id ≠ e.id)) = s.editorElements :=
      List.filter_eq_self.mpr fun x hx => by simpa using hfresh x hx
    have h2 : ([e].filter fun (x : EditorElement) => decide (x.id ≠ e.id)) = [] := by
      simp
    rw [h1, h2, List.append_nil]
  · show (if e.id = e.id then Option.none else Option.some e) = Option.none
    simp
  · intro sel hsel hid
    simp [Store.removeEditorElement, hsel, hid]

/-- Witness for C6: adding the sample text element to the empty default
store and removing it by id restores the empty sequence and leaves no
selection. -/
theorem c6_add_remove_roundtrip_witness :
    (∀ x ∈ initStore.editorElements, x.id ≠ sampleText.id)
    ∧ ((initStore.addEditorElement sampleText).removeEditorElement
        sampleText.id).editorElements = initStore.editorElements
    ∧ ((initStore.addEditorElement sampleText).removeEditorElement
        sampleText.id).selectedElement = Option.none := by
  have h := c6_add_remove_roundtrip initStore sampleText (by simp [initStore])
  exact ⟨by simp [initStore], h.1, h.2.1⟩

/-- C7: `setEditorElements(list)` replaces the element collection
wholesale; a previously held selection is re-resolved against the new list
by id (yielding the new list's instance with that id), and a null selection
stays null. -/
theorem c7_setEditorElements_reresolve (s : Store) (l : List EditorElement) :
    (s.setEditorElements l).editorElements = l
    ∧ (s.selectedElement = Option.none →
        (s.setEditorElements l).selectedElement = Option.none)
    ∧ (∀ sel e', s.selectedElement = Option.some sel →
        (l.find? fun (x : EditorElement) => decide (x.id = sel.id)) = Option.some e' →
        (s.setEditorElements l).selectedElement = Option.some e') := by
  refine ⟨rfl, ?_, ?_⟩
  · intro h
    simp [Store.setEditorElements, Store.refreshAnimations, h]
  · intro sel e' hsel hfind
    simp [Store.setEditorElements, Store.refreshAnimations, hsel, hfind]

/-- Witness for C7 at the unit-test scenario: with the sample text element
selected, replacing the collection by a renamed instance with the same id
re-resolves the selection to the renamed instance. -/
theorem c7_setEditorElements_reresolve_witness :
    (sampleStoreWithText.setEditorElements
        [{ sampleText with name := "Updated Text 1" }]).editorElements
      = [{ sampleText with name := "Updated Text 1" }]
    ∧ sampleStoreWithText.selectedElement = Option.some sampleText
    ∧ (([{ sampleText with name := "Updated Text 1" }].find?
        fun (x : EditorElement) => decide (x.id = sampleText.id))
          = Option.some { sampleText with name := "Updated Text 1" })
    ∧ (sampleStoreWithText.setEditorElements
        [{ sampleText with name := "Updated Text 1" }]).selectedElement
      = Option.some { sampleText with name := "Updated Text 1" } := by
  have h := c7_setEditorElements_reresolve sampleStoreWithText
    [{ sampleText with name := "Updated Text 1" }]
  exact ⟨h.1, by decide, by decide,
    h.2.2 sampleText { sampleText with name := "Updated Text 1" } (by decide) (by decide)⟩

/-- C8: `addAnimation` appends to the animation list, `updateAnimation`
replaces the animation with the given id (a subsequent read reflects the
update), `removeAnimation` removes it — and every such mutation triggers a
full rebuild of the shared timeline: prior tweens are cleared (the
backend's remove is invoked, recorded by `timelineCleared`) and one segment
is appended per (EditorElement, bound Animation) pair. -/
theorem c8_animation_crud_rebuild (s : Store) (a : Animation) (id : String) :
    (s.addAnimation a).animations = s.animations ++ [a]
    ∧ (s.removeAnimation id).animations
        = (s.animations.filter fun (x : Animation) => decide (x.id ≠ id))
    ∧ (a.id = id →
        ((s.animations.find? fun (x : Animation) => decide (x.id = id)).isSome = true) →
        ((s.updateAnimation id a).animations.find?
            fun (x : Animation) => decide (x.id = id)) = Option.some a)
    ∧ (s.addAnimation a).animationTimeLine
        = buildTimeline s.editorElements ((s.addAnimation a).animations)
    ∧ (s.addAnimation a).timelineCleared = true
    ∧ (s.updateAnimation id a).animationTimeLine
        = buildTimeline s.editorElements ((s.updateAnimation id a).animations)
    ∧ (s.updateAnimation id a).timelineCleared = true
    ∧ (s.removeAnimation id).animationTimeLine
        = buildTimeline s.editorElements ((s.removeAnimation id).animations)
    ∧ (s.removeAnimation id).timelineCleared = true := by
  refine ⟨rfl, rfl, ?_, rfl, rfl, rfl, rfl, rfl, rfl⟩
  intro ha hsome
  exact find_replace_by_id s.animations id a ha hsome

/-- Witness for C8 at the unit-test values: the fadeIn animation bound to
the sample text element, updated to duration 2000 under its id. -/
theorem c8_animation_crud_rebuild_witness :
    (({ id := "anim1", targetId := "t1", type := "fadeIn", duration := 2000 }
        : Animation).id = "anim1")
    ∧ (((sampleStoreWithText.addAnimation
          { id := "anim1", targetId := "t1", type := "fadeIn", duration := 1000 }).animations.find?
            fun (x : Animation) => decide (x.id = "anim1")).isSome = true)
    ∧ (((sampleStoreWithText.addAnimation
          { id := "anim1", targetId := "t1", type := "fadeIn", duration := 1000 }).updateAnimation
            "anim1"
            { id := "anim1", targetId := "t1", type := "fadeIn", duration := 2000 }).animations.find?
          fun (x : Animation) => decide (x.id = "anim1"))
        = Option.some { id := "anim1", targetId := "t1", type := "fadeIn", duration := 2000 }
    ∧ (sampleStoreWithText.addAnimation
          { id := "anim1", targetId := "t1", type := "fadeIn", duration := 1000 }).animationTimeLine
        = buildTimeline sampleStoreWithText.editorElements
            ((sampleStoreWithText.addAnimation
              { id := "anim1", targetId := "t1", type := "fadeIn", duration := 1000 }).animations)
    ∧ (sampleStoreWithText.addAnimation
        { id := "anim1", targetId := "t1", type := "fadeIn", duration := 1000 }).timelineCleared
        = true := by
  have h := c8_animation_crud_rebuild
    (sampleStoreWithText.addAnimation
      { id := "anim1", targetId := "t1", type := "fadeIn", duration := 1000 })
    { id := "anim1", targetId := "t1", type := "fadeIn", duration := 2000 } "anim1"
  have h0 := c8_animation_crud_rebuild sampleStoreWithText
    { id := "anim1", targetId := "t1", type := "fadeIn", duration := 1000 } "anim1"
  exact ⟨by decide, by decide, h.2.2.1 (by decide) (by decide), h0.2.2.2.1, h0.2.2.2.2.1⟩

/-- C9: `updateEffect(elementId, effect)` replaces the located video/image
element's `properties.effect` wholesale — afterwards reading that element's
effect yields the new effect — while keeping the element otherwise in place
(same id, name, timeframe, placement and type, same list length) and
leaving elements with other ids untouched. -/
theorem c9_updateEffect_replaces_effect (s : Store) (id : String) (eff : Effect)
    (e : EditorElement) (he : e ∈ s.editorElements) (hid : e.id = id)
    (hkind : e.type = ElementKind.video ∨ e.type = ElementKind.image)
    (hmedia : (effectOf e).isSome = true) :
    setElementEffect e eff ∈ (s.updateEffect id eff).editorElements
    ∧ effectOf (setElementEffect e eff) = Option.some eff
    ∧ (setElementEffect e eff).id = e.id
    ∧ (setElementEffect e eff).name = e.name
    ∧ (setElementEffect e eff).timeFrame = e.timeFrame
    ∧ (setElementEffect e eff).placement = e.placement
    ∧ (setElementEffect e eff).type = e.type
    ∧ (s.updateEffect id eff).editorElements.length = s.editorElements.length
    ∧ (∀ x ∈ s.editorElements, x.id ≠ id → x ∈ (s.updateEffect id eff).editorElements) := by
  have hcond : e.id = id ∧ (e.type = ElementKind.video ∨ e.type = ElementKind.image) :=
    ⟨hid, hkind⟩
  refine ⟨?_, ?_, ?_, ?_, ?_, ?_, ?_, ?_, ?_⟩
  · exact List.mem_map.mpr ⟨e, he, by rw [if_pos hcond]⟩
  · cases hp : e.properties with
    | media eid src oldEff => simp [setElementEffect, effectOf, hp]
    | text t fs fw sp => rw [effectOf, hp] at hmedia; simp at hmedia
    | audio eid src => rw [effectOf, hp] at hmedia; simp at hmedia
  · cases hp : e.properties <;> simp [setElementEffect, hp]
  · cases hp : e.properties <;> simp [setElementEffect, hp]
  · cases hp : e.properties <;> simp [setElementEffect, hp]
  · cases hp : e.properties <;> simp [setElementEffect, hp]
  · cases hp : e.properties <;> simp [setElementEffect, hp]
  · exact List.length_map _ _
  · intro x hx hxid
    refine List.mem_map.mpr ⟨x, hx, ?_⟩
    rw [if_neg fun hc => hxid hc.1]

/-- Witness for C9 at the unit-test values: switching the sample video
element's effect to blackAndWhite in the media store. -/
theorem c9_updateEffect_replaces_effect_witness :
    sampleVideo ∈ mediaStore.editorElements
    ∧ sampleVideo.id = "v1"
    ∧ sampleVideo.type = ElementKind.video
    ∧ (effectOf sampleVideo).isSome = true
    ∧ setElementEffect sampleVideo { type := EffectKind.blackAndWhite }
        ∈ (mediaStore.updateEffect "v1" { type := EffectKind.blackAndWhite }).editorElements
    ∧ effectOf (setElementEffect sampleVideo { type := EffectKind.blackAndWhite })
        = Option.some { type := EffectKind.blackAndWhite } := by
  have h := c9_updateEffect_replaces_effect mediaStore "v1"
    { type := EffectKind.blackAndWhite } sampleVideo (by decide) (by decide)
    (Or.inl (by decide)) (by decide)
  exact ⟨by decide, by decide, by decide, by decide, h.1, h.2.1⟩

end FabricVideoEditor
